import Mathlib

/-!
Shallow embedding of `src/openhands/linter/languages/typescript.py`.

The module under verification is a thin adapter around two external tools
(`eslint` and `tsc`).  External behaviour that the Python module merely
observes — the availability flags computed by `check_tool_installed`, the
value returned (or exception raised) by `run_cmd`, the result of
`json.loads`, and the content of the input file — is supplied through an
explicit environment record `Env`.  Everything the module itself computes
(control flow, output parsing, the fallback heuristic, temp-file lifecycle)
is translated line by line from the source.
-/

set_option autoImplicit false

namespace TsLint

/-! ## Python string primitives used by the source -/

/-- Whitespace characters removed by Python `str.strip()` (ASCII subset;
the inputs handled here are produced by `str.split`, so this is exact for
the strings that occur). -/
def pyWhitespace (c : Char) : Bool :=
  c = ' ' || c = '\t' || c = '\n' || c = '\r' || c = Char.ofNat 11 || c = Char.ofNat 12

/-- Python `s.strip()`. -/
def pyStrip (s : String) : String :=
  String.mk (((s.toList.dropWhile pyWhitespace).reverse.dropWhile pyWhitespace).reverse)

/-- Python single-character `s.split(sep)` on character lists: splitting an
empty string gives `[[]]`, and every separator occurrence opens a new
piece. -/
def splitChar (c : Char) (s : List Char) : List (List Char) :=
  match s with
  | [] => [[]]
  | x :: t =>
    let r := splitChar c t
    if x = c then [] :: r
    else
      match r with
      | [] => [[x]]
      | h :: t2 => (x :: h) :: t2

/-- Python `s.split(sep)` for a single-character separator — the only kind
the source uses (`'\n'`, `'('`, `')'`, `','`). -/
def pySplit (s : String) (sep : Char) : List String :=
  (splitChar sep s.toList).map String.mk

/-- Python `s.endswith(suf)`. -/
def pyEndsWith (s suf : String) : Bool :=
  suf.toList.reverse.isPrefixOf s.toList.reverse

/-- Python `s.startswith(pre)`. -/
def pyStartsWith (s pre : String) : Bool :=
  pre.toList.isPrefixOf s.toList

/-- Substring containment on character lists, used for Python `sub in s`. -/
def containsSub (hay needle : List Char) : Bool :=
  match hay with
  | [] => needle.isEmpty
  | c :: t => needle.isPrefixOf (c :: t) || containsSub t needle

/-- Python `sub in s` for strings. -/
def strContains (s sub : String) : Bool :=
  containsSub s.toList sub.toList

/-- Numeric value of a run of decimal digits. -/
def digitsToNat (ds : List Char) : Nat :=
  ds.foldl (fun a c => a * 10 + (c.toNat - 48)) 0

/-- Python `int(s)`: strips whitespace, accepts an optional sign followed by
one or more digits; any other shape raises `ValueError`, modelled as `none`. -/
def pyInt (s : String) : Option Int :=
  match (pyStrip s).toList with
  | [] => none
  | c :: rest =>
    let signed : Bool × List Char :=
      if c = '-' then (true, rest)
      else if c = '+' then (false, rest)
      else (false, c :: rest)
    if !signed.2.isEmpty && signed.2.all Char.isDigit then
      some (if signed.1 then -(digitsToNat signed.2 : Int) else (digitsToNat signed.2 : Int))
    else none

/-! ## Data model -/

/-- Modelled from the spec: `LintResult` lives in `openhands.linter.linter`,
which is not under `src/`; the spec describes a Finding as "source file
path, line number, column number, message text".  The `tsc` paths construct
exactly these four attributes (lines 118-124 and 151-152 of the source). -/
structure LintResult where
  filepath : String
  line : Int
  column : Int
  message : String
  deriving DecidableEq, Repr

/-- The Python exceptions the module can let escape. -/
inductive PyExc where
  | fileNotFound
  | otherError
  deriving DecidableEq, Repr

/-- A value returned by one of the module's operations: a list of findings,
the bare `LintResult(text=..., lines=...)` record built at line 86 of the
source (not a list), or a propagated exception. -/
inductive PyRet where
  | list (results : List LintResult)
  | singleTextLines (text : String) (lines : List Int)
  | exc (e : PyExc)
  deriving DecidableEq, Repr

/-- Whether a returned value is a Python list. -/
def PyRet.isList : PyRet → Bool
  | .list _ => true
  | _ => false

/-- One message object inside ESLint's JSON output
(`{line, column, message, ruleId}`). -/
structure EslintMessage where
  line : Int
  column : Int
  message : String
  ruleId : String
  deriving DecidableEq, Repr

/-- One file entry inside ESLint's JSON output (`{filePath, messages}`);
only `messages` is read by the source (line 77). -/
structure EslintFileEntry where
  messages : List EslintMessage
  deriving DecidableEq, Repr

/-- Modelled from the spec: `run_cmd` lives in `openhands.linter.utils`,
which is not under `src/`.  Its result is declared `str | None` at line 66
of the source; being Python it could dynamically also be some object.
`obj text` stands for a response-like object carrying a `.text` attribute —
the only kind of value that satisfies the `hasattr(eslint_res, 'text')`
guard at line 70. -/
inductive PyVal where
  | none
  | str (s : String)
  | obj (text : String)
  deriving DecidableEq, Repr

/-- Python truthiness of the value. -/
def PyVal.truthy : PyVal → Bool
  | .none => false
  | .str s => !s.isEmpty
  | .obj _ => true

/-- `hasattr(v, 'text')`: holds only for the object case; a `str` or `None`
has no `text` attribute. -/
def PyVal.hasattrText : PyVal → Bool
  | .obj _ => true
  | _ => false

/-- `run_cmd`'s result within its declared type `str | None` (line 66). -/
def declaredRunCmd : Option PyVal → Bool := fun _ => true

/-- Outcome of the `run_cmd` call made by `ts_eslint`: it may raise
`FileNotFoundError` (caught at line 90), raise some other exception
(caught at line 92), or return a value. -/
inductive CmdOutcome where
  | raiseFnf
  | raiseOther
  | ret (v : PyVal)
  deriving DecidableEq, Repr

/-- `run_cmd` returned a value inside its declared type `str | None`
(no `.text` attribute). -/
def CmdOutcome.declared : CmdOutcome → Bool
  | .ret (.obj _) => false
  | _ => true

/-- Outcome of the `run_cmd` call made by `ts_tsc_lint`: raise
`FileNotFoundError` (caught at line 129), raise another exception
(uncaught there), or return `str | None`. -/
inductive TscCmdOutcome where
  | raiseFnf
  | raiseOther
  | ret (r : Option String)
  deriving DecidableEq, Repr

/-- The environment a lint call runs in: the two module-level availability
flags, the behaviour of the external commands and of `json.loads` on the
produced output, and the input file's content (`none` means opening the
file raises `FileNotFoundError`). -/
structure Env where
  ts_installed : Bool
  eslint_installed : Bool
  eslint_cmd : CmdOutcome
  json_loads : String → Except Unit (List EslintFileEntry)
  tsc_cmd : TscCmdOutcome
  file_content : Option String

/-! ## `ts_eslint` (source lines 24-97) -/

/-- The message string built at line 81:
`f"{filepath}:{line}:{column}: {message} ({ruleId})"`. -/
def eslintFormatMessage (fp : String) (m : EslintMessage) : String :=
  let l := m.line
  let c := m.column
  let msg := m.message
  let rid := m.ruleId
  s!"{fp}:{l}:{c}: {msg} ({rid})"

/-- The `error_lines` and `error_messages` accumulators of lines 73-82:
one entry per message, over all file entries, in order. -/
def eslintCollect (fp : String) (entries : List EslintFileEntry) : List Int × List String :=
  let msgs := (entries.map (fun e => e.messages)).flatten
  (msgs.map (fun m => m.line), msgs.map (eslintFormatMessage fp))

/-- Result of a `ts_eslint` call together with whether the temporary
configuration file written at lines 52-56 still exists when the call
returns. -/
structure EslintRun where
  result : PyRet
  tempConfigLeft : Bool
  deriving DecidableEq, Repr

/-- `ts_eslint` (lines 24-97).  `plugin_dir` only alters the external
command line (line 62-64), which is abstracted into `env.eslint_cmd`, so it
does not influence the modelled result. -/
def ts_eslint (filepath : String) (plugin_dir : Option String) (env : Env) : EslintRun :=
  if env.eslint_installed = false then
    -- lines 29-30: return [] before any temporary file is created
    { result := .list [], tempConfigLeft := false }
  else
    -- lines 52-56: the config is written to a NamedTemporaryFile(delete=False);
    -- lines 58-94 are the try block, lines 95-96 the finally that unlinks it.
    let body : PyRet :=
      match env.eslint_cmd with
      | .raiseFnf => .list []      -- lines 90-91: except FileNotFoundError
      | .raiseOther => .list []    -- lines 92-94: except Exception
      | .ret (.obj t) =>
        -- line 70: an object is truthy and is the only value with `.text`
        match env.json_loads t with
        | .error _ => .list []     -- lines 87-89: except json.JSONDecodeError
        | .ok entries =>
          let collected := eslintCollect filepath entries
          if collected.2.isEmpty then .list []   -- lines 83-84
          else .singleTextLines (String.intercalate "\n" collected.2) collected.1  -- line 86
      | .ret _ =>
        -- a `str` or `None` fails the hasattr guard at line 70; control
        -- falls past the try block to the `return []` at line 97
        .list []
    -- the finally block (lines 95-96) has run on every path above
    { result := body, tempConfigLeft := false }

/-! ## `ts_tsc_lint` (source lines 100-155) -/

/-- Parse of one line of `tsc` output (lines 112-127): lines mentioning
`: error TS` or `: warning TS` contribute a finding built from the
parenthesized `(line,column)` segment; an `IndexError` from `split('(')[1]`
or a `ValueError` from the int conversion / tuple unpacking is swallowed by
`continue`. -/
def tscParseLine (filepath line : String) : Option LintResult :=
  if strContains line ": error TS" || strContains line ": warning TS" then
    match (pySplit line '(').get? 1 with
    | Option.none => Option.none        -- IndexError -> continue
    | some afterParen =>
      let location_part := (pySplit afterParen ')').headD ""
      match pySplit location_part ',' with
      | [a, b] =>
        match pyInt a, pyInt b with
        | some ln, some col =>
          some { filepath := filepath, line := ln, column := col, message := line }
        | _, _ => Option.none           -- ValueError -> continue
      | _ => Option.none                -- unpacking ValueError -> continue
  else Option.none

/-- The `results` list accumulated over `tsc_res.split('\n')`
(lines 110-128). -/
def tscParseOutput (filepath out : String) : List LintResult :=
  (pySplit out '\n').filterMap (tscParseLine filepath)

/-- The condition of lines 139-145 under which the fallback flags a line:
stripped content non-empty, not ending in `;`, `\x7b` or `\x7d`, not
starting with `//`. -/
def tsFallbackFlagged (line : String) : Bool :=
  let stripped := pyStrip line
  !stripped.isEmpty
    && !pyEndsWith stripped ";"
    && !pyEndsWith stripped "\x7b"
    && !pyEndsWith stripped "\x7d"
    && !pyStartsWith stripped "//"

/-- The `error_lines` accumulator of lines 136-146: the 1-based indices of
flagged lines, in order; `i` is the current 0-based index of `enumerate`. -/
def tsErrorLinesLoop (lines : List String) (i : Nat) : List Nat :=
  match lines with
  | [] => []
  | l :: rest =>
    if tsFallbackFlagged l then (i + 1) :: tsErrorLinesLoop rest (i + 1)
    else tsErrorLinesLoop rest (i + 1)

/-- The message built at line 150:
`f"{filepath}({line_no},1): error TS1005: ';' expected."`. -/
def tsHeuristicMessage (fp : String) (n : Int) : String :=
  s!"{fp}({n},1): error TS1005: \x27;\x27 expected."

/-- The finding built at lines 150-152 for a flagged (1-based) line number:
column 1 and the TS1005 message. -/
def mkHeuristicFinding (fp : String) (n : Nat) : LintResult :=
  { filepath := fp, line := (n : Int), column := 1,
    message := tsHeuristicMessage fp (n : Int) }

/-- The findings produced by the fallback heuristic (lines 132-154) on the
given file content. -/
def tsHeuristic (fp code : String) : List LintResult :=
  (tsErrorLinesLoop (pySplit code '\n') 0).map (mkHeuristicFinding fp)

/-- Result of a `ts_tsc_lint` call together with whether control reached the
`open(filepath)` call at line 133. -/
structure TscRun where
  result : PyRet
  openedInput : Bool
  deriving DecidableEq, Repr

/-- The fallback path of `ts_tsc_lint` (lines 132-155).  The `open` at
line 133 sits outside every try block: a missing or unreadable file raises
`FileNotFoundError` to the caller. -/
def tscFallback (filepath : String) (env : Env) : TscRun :=
  match env.file_content with
  | Option.none => { result := .exc .fileNotFound, openedInput := true }
  | some code => { result := .list (tsHeuristic filepath code), openedInput := true }

/-- `ts_tsc_lint` (lines 100-155). -/
def ts_tsc_lint (filepath : String) (env : Env) : TscRun :=
  if env.ts_installed = false then
    -- lines 103-104: return [] immediately, no subprocess, no fallback
    { result := .list [], openedInput := false }
  else
    match env.tsc_cmd with
    | .raiseOther =>
      -- only FileNotFoundError is caught (line 129); anything else escapes
      { result := .exc .otherError, openedInput := false }
    | .raiseFnf =>
      -- lines 129-130: pass, then fall through to the heuristic
      tscFallback filepath env
    | .ret Option.none =>
      -- `if tsc_res:` is false for None: fall through to the heuristic
      tscFallback filepath env
    | .ret (some s) =>
      if s.isEmpty then
        -- `if tsc_res:` is false for '': fall through to the heuristic
        tscFallback filepath env
      else
        -- lines 110-128: parse the output and `return results`, whether or
        -- not any line produced a finding; the input file is never opened
        { result := .list (tscParseOutput filepath s), openedInput := false }

/-! ## Dispatch (source lines 158-168) -/

namespace TypeScriptLinter

/-- `TypeScriptLinter.supported_extensions` (lines 159-161). -/
def supported_extensions : List String := [".ts", ".tsx"]

/-- `TypeScriptLinter.lint` (lines 163-168): prefer ESLint, else tsc, else
return `[]`.  `ts_eslint` is called without a plugin directory. -/
def lint (file_path : String) (env : Env) : PyRet :=
  if env.eslint_installed then (ts_eslint file_path Option.none env).result
  else if env.ts_installed then (ts_tsc_lint file_path env).result
  else .list []

end TypeScriptLinter

/-! ## Spec-side restatement of the fallback heuristic (for claim C6) -/

/-- The claim's flagging condition, written from its words: the stripped
content is non-empty, does not end with `;`, `\x7b` or `\x7d`, and does not
start with `//`. -/
def specFlagged (line : String) : Bool :=
  let s := pyStrip line
  decide (s ≠ "")
    && !pyEndsWith s ";"
    && !pyEndsWith s "\x7b"
    && !pyEndsWith s "\x7d"
    && !pyStartsWith s "//"

/-- The claim's description of the heuristic output: exactly one finding per
flagged line, at that (1-based) line number, column 1. -/
def specHeuristic (fp code : String) : List LintResult :=
  (pySplit code '\n').enum.filterMap (fun p =>
    if specFlagged p.2 then some (mkHeuristicFinding fp (p.1 + 1)) else Option.none)

/-! ## Concrete environments used by counterexamples and witnesses -/

/-- A `json.loads` behaviour that always fails to decode. -/
def jlFail : String → Except Unit (List EslintFileEntry) := fun _ => Except.error ()

/-- The ESLint message for a missing semicolon at line 1, as the configured
`semi: always` rule reports it. -/
def semiMessage : EslintMessage :=
  { line := 1, column := 12, message := "Missing semicolon.", ruleId := "semi" }

/-- The JSON text ESLint prints for a one-line file `const x = 5` under the
written configuration. -/
def eslintSemiJsonText : String :=
  "[\x7b\"filePath\":\"f.ts\",\"messages\":[\x7b\"line\":1,\"column\":12,\"message\":\"Missing semicolon.\",\"ruleId\":\"semi\"\x7d]\x7d]"

/-- A `json.loads` behaviour that decodes the output to the one semicolon
message above. -/
def jlSemi : String → Except Unit (List EslintFileEntry) :=
  fun _ => Except.ok [{ messages := [semiMessage] }]

/-- tsc installed, eslint not; tsc prints nothing; the input file does not
exist. -/
def envMissingFile : Env :=
  { ts_installed := true, eslint_installed := false,
    eslint_cmd := .ret .none, json_loads := jlFail,
    tsc_cmd := .ret Option.none, file_content := Option.none }

/-- ESLint installed; `run_cmd` returns the JSON report for a missing
semicolon as a `str` (its declared type); `json.loads` would decode it. -/
def envEslintStrJson : Env :=
  { ts_installed := false, eslint_installed := true,
    eslint_cmd := .ret (.str eslintSemiJsonText), json_loads := jlSemi,
    tsc_cmd := .ret Option.none, file_content := some "const x = 5" }

/-- ESLint installed; `run_cmd` returns an object carrying the JSON report
in its `.text` attribute, the only shape that passes the `hasattr` guard. -/
def envEslintObj : Env :=
  { ts_installed := false, eslint_installed := true,
    eslint_cmd := .ret (.obj eslintSemiJsonText), json_loads := jlSemi,
    tsc_cmd := .ret Option.none, file_content := some "const x = 5" }

/-- Neither tool installed; the input file exists and contains a line the
heuristic would flag. -/
def envTsNotInstalled : Env :=
  { ts_installed := false, eslint_installed := false,
    eslint_cmd := .ret .none, json_loads := jlFail,
    tsc_cmd := .raiseFnf, file_content := some "const x = 5" }

/-- tsc installed; its output is non-empty but every line's location
segment is malformed; the input file exists and would be flagged. -/
def tscMalformedOut : String := "f.ts: error TS1005 with no location segment"

/-- Environment around `tscMalformedOut`. -/
def envTscMalformed : Env :=
  { ts_installed := true, eslint_installed := false,
    eslint_cmd := .ret .none, json_loads := jlFail,
    tsc_cmd := .ret (some tscMalformedOut), file_content := some "const x = 5" }

/-- tsc installed, eslint not; tsc returns `None`; the input file exists. -/
def envTscFallback : Env :=
  { ts_installed := true, eslint_installed := false,
    eslint_cmd := .ret .none, json_loads := jlFail,
    tsc_cmd := .ret Option.none, file_content := some "const x = 5" }

/-- ESLint installed; invoking it raises `FileNotFoundError`. -/
def envEslintFnf : Env :=
  { ts_installed := false, eslint_installed := true,
    eslint_cmd := .raiseFnf, json_loads := jlFail,
    tsc_cmd := .ret Option.none, file_content := Option.none }

/-! ## Helper lemmas -/

lemma ts_eslint_declared_empty (fp : String) (pd : Option String) (env : Env)
    (h : env.eslint_cmd.declared = true) :
    (ts_eslint fp pd env).result = PyRet.list [] := by
  obtain ⟨ts, es, ec, jl, tc, fc⟩ := env
  cases es with
  | false => simp [ts_eslint]
  | true =>
    cases ec with
    | raiseFnf => simp [ts_eslint]
    | raiseOther => simp [ts_eslint]
    | ret v =>
      cases v with
      | none => simp [ts_eslint]
      | str s => simp [ts_eslint]
      | obj t => simp [CmdOutcome.declared] at h

lemma ts_tsc_lint_isList (fp : String) (env : Env)
    (hfile : env.file_content ≠ Option.none)
    (htsc : env.tsc_cmd ≠ TscCmdOutcome.raiseOther) :
    (ts_tsc_lint fp env).result.isList = true := by
  obtain ⟨ts, es, ec, jl, tc, fc⟩ := env
  cases ts with
  | false => simp [ts_tsc_lint, PyRet.isList]
  | true =>
    cases tc with
    | raiseOther => exact absurd rfl htsc
    | raiseFnf =>
      cases fc with
      | none => exact absurd rfl hfile
      | some code => simp [ts_tsc_lint, tscFallback, PyRet.isList]
    | ret r =>
      cases r with
      | none =>
        cases fc with
        | none => exact absurd rfl hfile
        | some code => simp [ts_tsc_lint, tscFallback, PyRet.isList]
      | some s =>
        cases fc with
        | none => exact absurd rfl hfile
        | some code =>
          by_cases hs : s.isEmpty = true <;>
            simp [ts_tsc_lint, tscFallback, PyRet.isList, hs]

lemma lint_isList (fp : String) (env : Env)
    (hes : env.eslint_cmd.declared = true)
    (hfile : env.file_content ≠ Option.none)
    (htsc : env.tsc_cmd ≠ TscCmdOutcome.raiseOther) :
    (TypeScriptLinter.lint fp env).isList = true := by
  unfold TypeScriptLinter.lint
  by_cases h1 : env.eslint_installed = true
  · simp only [h1, if_true]
    rw [ts_eslint_declared_empty fp Option.none env hes]
    rfl
  · by_cases h2 : env.ts_installed = true
    · simp only [h1, h2, if_false, if_true]
      exact ts_tsc_lint_isList fp env hfile htsc
    · simp [h1, h2, PyRet.isList]

lemma tsFallbackFlagged_eq (l : String) : tsFallbackFlagged l = specFlagged l := by
  have h1 : (pyStrip l).isEmpty = decide (pyStrip l = "") := by
    rw [Bool.eq_iff_iff]
    simp [String.isEmpty_iff]
  simp only [tsFallbackFlagged, specFlagged, h1, decide_not]

lemma tsErrorLinesLoop_map (fp : String) (lines : List String) (i : Nat) :
    (tsErrorLinesLoop lines i).map (mkHeuristicFinding fp) =
      (List.enumFrom i lines).filterMap (fun p =>
        if specFlagged p.2 then some (mkHeuristicFinding fp (p.1 + 1)) else Option.none) := by
  induction lines generalizing i with
  | nil => rfl
  | cons l rest ih =>
    cases hflag : tsFallbackFlagged l with
    | true =>
      have h2 : specFlagged l = true := by rw [← tsFallbackFlagged_eq]; exact hflag
      simp [tsErrorLinesLoop, List.enumFrom, hflag, h2, ih]
    | false =>
      have h2 : specFlagged l = false := by rw [← tsFallbackFlagged_eq]; exact hflag
      simp [tsErrorLinesLoop, List.enumFrom, hflag, h2, ih]

/-! ## Claims -/

/-- C1, counterexample: with tsc installed, tsc producing no output and the
input file missing, `ts_tsc_lint` (and `TypeScriptLinter.lint`, which
forwards to it) raises `FileNotFoundError` from the bare `open(filepath)`
at line 133 instead of returning a list. -/
theorem c1_counterexample_missing_file_raises :
    (ts_tsc_lint "a.ts" envMissingFile).result = PyRet.exc PyExc.fileNotFound ∧
    TypeScriptLinter.lint "a.ts" envMissingFile = PyRet.exc PyExc.fileNotFound :=
  ⟨rfl, rfl⟩

/-- C1, amended: `ts_eslint` always returns normally with a list, and
`ts_tsc_lint` and `TypeScriptLinter.lint` return normally with a list
provided the tsc invocation does not raise an exception other than
`FileNotFoundError` and, in case the fallback heuristic is reached, the
input file can be opened; a missing input file on the fallback path raises
`FileNotFoundError` to the caller. -/
theorem c1_total_when_input_readable (fp : String) (pd : Option String) (env : Env)
    (hes : env.eslint_cmd.declared = true)
    (hfile : env.file_content ≠ Option.none)
    (htsc : env.tsc_cmd ≠ TscCmdOutcome.raiseOther) :
    (ts_eslint fp pd env).result.isList = true ∧
    (ts_tsc_lint fp env).result.isList = true ∧
    (TypeScriptLinter.lint fp env).isList = true := by
  refine ⟨?_, ts_tsc_lint_isList fp env hfile htsc, lint_isList fp env hes hfile htsc⟩
  rw [ts_eslint_declared_empty fp pd env hes]
  rfl

/-- C1, witness for the amended theorem at a concrete environment. -/
theorem c1_witness :
    (ts_eslint "a.ts" Option.none envTscFallback).result.isList = true ∧
    (ts_tsc_lint "a.ts" envTscFallback).result.isList = true ∧
    (TypeScriptLinter.lint "a.ts" envTscFallback).isList = true :=
  c1_total_when_input_readable "a.ts" Option.none envTscFallback
    (by decide) (by decide) (by decide)

/-- C2, code-bug evaluation: with ESLint installed and `run_cmd` returning
(as a `str`, its declared type) the JSON report of a missing-semicolon
violation at line 1 that `json.loads` decodes to one `semi` message,
`ts_eslint` still returns the empty list: the `hasattr(eslint_res, 'text')`
guard at line 70 rejects every string, so the report is never parsed. -/
theorem c2_code_bug_eval :
    (ts_eslint "f.ts" Option.none envEslintStrJson).result = PyRet.list [] ∧
    envEslintStrJson.json_loads eslintSemiJsonText =
      Except.ok [{ messages := [semiMessage] }] ∧
    semiMessage.line = 1 :=
  ⟨rfl, rfl, rfl⟩

/-- C3: `TypeScriptLinter.lint` returns exactly `ts_eslint`'s result when
ESLint is installed, exactly `ts_tsc_lint`'s result when only tsc is
installed, and the empty list when neither is; findings of the two tools
are never merged in one call. -/
theorem c3_dispatch (fp : String) (env : Env) :
    (env.eslint_installed = true →
      TypeScriptLinter.lint fp env = (ts_eslint fp Option.none env).result) ∧
    (env.eslint_installed = false → env.ts_installed = true →
      TypeScriptLinter.lint fp env = (ts_tsc_lint fp env).result) ∧
    (env.eslint_installed = false → env.ts_installed = false →
      TypeScriptLinter.lint fp env = PyRet.list []) := by
  refine ⟨fun h => ?_, fun h1 h2 => ?_, fun h1 h2 => ?_⟩
  · simp [TypeScriptLinter.lint, h]
  · simp [TypeScriptLinter.lint, h1, h2]
  · simp [TypeScriptLinter.lint, h1, h2]

/-- C3, witness: the three dispatch cases at concrete environments. -/
theorem c3_witness :
    TypeScriptLinter.lint "a.ts" envEslintFnf =
      (ts_eslint "a.ts" Option.none envEslintFnf).result ∧
    TypeScriptLinter.lint "a.ts" envTscFallback =
      (ts_tsc_lint "a.ts" envTscFallback).result ∧
    TypeScriptLinter.lint "a.ts" envTsNotInstalled = PyRet.list [] :=
  ⟨(c3_dispatch "a.ts" envEslintFnf).1 rfl,
   (c3_dispatch "a.ts" envTscFallback).2.1 rfl rfl,
   (c3_dispatch "a.ts" envTsNotInstalled).2.2 rfl rfl⟩

/-- C4: whenever ESLint is installed (so the temporary configuration file
is created at all), `ts_eslint`'s `finally` block has unlinked it on every
exit path before the call returns. -/
theorem c4_temp_config_deleted (fp : String) (pd : Option String) (env : Env)
    (h : env.eslint_installed = true) :
    (ts_eslint fp pd env).tempConfigLeft = false := by
  unfold ts_eslint
  split <;> rfl

/-- C4, witness at a concrete environment. -/
theorem c4_witness :
    (ts_eslint "a.ts" Option.none envEslintFnf).tempConfigLeft = false :=
  c4_temp_config_deleted "a.ts" Option.none envEslintFnf rfl

/-- C5, counterexample: with tsc not installed and a file whose content the
heuristic would flag, `ts_tsc_lint` returns the empty list at lines 103-104
without running the heuristic or opening the file — contradicting the
claim that unavailability (including "not installed") triggers the
fallback. -/
theorem c5_counterexample_not_installed_skips_fallback :
    (ts_tsc_lint "f.ts" envTsNotInstalled).result = PyRet.list [] ∧
    (ts_tsc_lint "f.ts" envTsNotInstalled).openedInput = false ∧
    tsHeuristic "f.ts" "const x = 5" ≠ [] := by
  refine ⟨rfl, rfl, ?_⟩
  decide

/-- C5, amended: with tsc installed, whenever the tsc invocation yields no
output (`None` or the empty string) or raises `FileNotFoundError` (missing
executable), `ts_tsc_lint` falls back to the heuristic on the file's
content and returns its findings. -/
theorem c5_fallback_when_no_output (fp code : String) (env : Env)
    (hts : env.ts_installed = true)
    (hcmd : env.tsc_cmd = TscCmdOutcome.raiseFnf ∨
            env.tsc_cmd = TscCmdOutcome.ret Option.none ∨
            env.tsc_cmd = TscCmdOutcome.ret (some ""))
    (hfile : env.file_content = some code) :
    ts_tsc_lint fp env =
      { result := PyRet.list (tsHeuristic fp code), openedInput := true } := by
  obtain ⟨ts, es, ec, jl, tc, fc⟩ := env
  subst hts
  subst hfile
  rcases hcmd with h | h | h <;> subst h <;>
    simp [ts_tsc_lint, tscFallback, String.isEmpty_iff]

/-- C5, witness for the amended theorem at a concrete environment. -/
theorem c5_witness :
    ts_tsc_lint "f.ts" envTscFallback =
      { result := PyRet.list (tsHeuristic "f.ts" "const x = 5"),
        openedInput := true } :=
  c5_fallback_when_no_output "f.ts" "const x = 5" envTscFallback
    rfl (Or.inr (Or.inl rfl)) rfl

/-- C6: the fallback heuristic flags a line iff its stripped content is
non-empty, does not end with a semicolon or a brace, and does not start
with a comment marker, and yields exactly one finding per flagged line at
that 1-based line number with column 1: the heuristic's output equals the
claim-side restatement `specHeuristic`. -/
theorem c6_heuristic_flags_iff (fp code : String) :
    tsHeuristic fp code = specHeuristic fp code := by
  unfold tsHeuristic specHeuristic
  rw [tsErrorLinesLoop_map]
  rfl

/-- C7: with ESLint installed, a `FileNotFoundError` (missing executable),
any other exception from the invocation, or a JSON decode failure on the
tool's output all make `ts_eslint` return the empty list instead of
propagating the error. -/
theorem c7_error_paths_empty (fp : String) (pd : Option String) (env : Env)
    (hinst : env.eslint_installed = true)
    (herr : env.eslint_cmd = CmdOutcome.raiseFnf ∨
            env.eslint_cmd = CmdOutcome.raiseOther ∨
            ∃ t, env.eslint_cmd = CmdOutcome.ret (PyVal.obj t) ∧
                 env.json_loads t = Except.error ()) :
    (ts_eslint fp pd env).result = PyRet.list [] := by
  obtain ⟨ts, es, ec, jl, tc, fc⟩ := env
  subst hinst
  rcases herr with h | h | ⟨t, h, hj⟩
  · subst h; simp [ts_eslint]
  · subst h; simp [ts_eslint]
  · subst h
    have hj2 : jl t = Except.error () := hj
    simp [ts_eslint, hj2]

/-- C7, witness: the missing-executable path at a concrete environment. -/
theorem c7_witness :
    (ts_eslint "a.ts" Option.none envEslintFnf).result = PyRet.list [] :=
  c7_error_paths_empty "a.ts" Option.none envEslintFnf rfl (Or.inl rfl)

/-- C8, counterexample: on the style-check success path with one reported
message — reachable only when `run_cmd` returns an object with a `.text`
attribute — `ts_eslint` returns the bare record built at line 86
(`LintResult(text=..., lines=...)`), not a list. -/
theorem c8_counterexample_success_path_not_list :
    (ts_eslint "f.ts" Option.none envEslintObj).result.isList = false ∧
    (ts_eslint "f.ts" Option.none envEslintObj).result =
      PyRet.singleTextLines (eslintFormatMessage "f.ts" semiMessage) [1] :=
  ⟨rfl, rfl⟩

/-- C8, amended: `TypeScriptLinter.lint` returns an ordered list whenever
`run_cmd` returns a value of its declared type `str | None`, the tsc
invocation does not raise an unexpected exception, and the input file can
be opened if the fallback is reached; the (then unreachable) style-check
success path would return a single record, not a list. -/
theorem c8_lint_returns_list (fp : String) (env : Env)
    (hes : env.eslint_cmd.declared = true)
    (hfile : env.file_content ≠ Option.none)
    (htsc : env.tsc_cmd ≠ TscCmdOutcome.raiseOther) :
    (TypeScriptLinter.lint fp env).isList = true :=
  lint_isList fp env hes hfile htsc

/-- C8, witness for the amended theorem at a concrete environment. -/
theorem c8_witness :
    (TypeScriptLinter.lint "b.ts" envTscFallback).isList = true :=
  c8_lint_returns_list "b.ts" envTscFallback (by decide) (by decide) (by decide)

/-- C9: whenever `run_cmd` returns a value of its declared type
`str | None` (or raises), `ts_eslint` returns the empty list: the parsing
branch is guarded by `hasattr(eslint_res, 'text')`, which no string
satisfies. -/
theorem c9_declared_run_cmd_gives_empty (fp : String) (pd : Option String) (env : Env)
    (h : env.eslint_cmd.declared = true) :
    (ts_eslint fp pd env).result = PyRet.list [] :=
  ts_eslint_declared_empty fp pd env h

/-- C9, witness: even a well-formed JSON report returned as a `str` yields
the empty list. -/
theorem c9_witness :
    (ts_eslint "g.ts" Option.none envEslintStrJson).result = PyRet.list [] :=
  c9_declared_run_cmd_gives_empty "g.ts" Option.none envEslintStrJson rfl

/-- C10: with tsc installed, any non-empty tsc output makes `ts_tsc_lint`
return the parsed findings (possibly the empty list, when every candidate
line's location segment is malformed) without opening the input file: the
fallback heuristic is skipped. -/
theorem c10_nonempty_output_skips_fallback (fp s : String) (env : Env)
    (hts : env.ts_installed = true)
    (hcmd : env.tsc_cmd = TscCmdOutcome.ret (some s))
    (hs : s ≠ "") :
    ts_tsc_lint fp env =
      { result := PyRet.list (tscParseOutput fp s), openedInput := false } := by
  obtain ⟨ts, es, ec, jl, tc, fc⟩ := env
  subst hts
  subst hcmd
  have h1 : s.isEmpty = false := by
    rw [Bool.eq_iff_iff]
    simp [String.isEmpty_iff, hs]
  simp [ts_tsc_lint, h1]

/-- C10, witness: a non-empty output whose only error line lacks a
parenthesized location yields the empty parsed list, and the flaggable
input file is never opened. -/
theorem c10_witness :
    ts_tsc_lint "f.ts" envTscMalformed =
      { result := PyRet.list (tscParseOutput "f.ts" tscMalformedOut),
        openedInput := false } ∧
    tscParseOutput "f.ts" tscMalformedOut = [] :=
  ⟨c10_nonempty_output_skips_fallback "f.ts" tscMalformedOut envTscMalformed
      rfl rfl (by decide),
    by decide⟩

end TsLint
